import Mathlib

/-!
Verification of the booking/session lifecycle core of the coaching
marketplace (session-service and payment-service) against its
natural-language specification.

The services are Express handlers over PostgreSQL tables `bookings` and
`payment_intents`.  We embed each relevant handler as a pure Lean function
over an explicit store (a list of rows), translated statement by statement
from `src/services/session-service/src/main.js` and the payment service
source.  Time is modelled as integer milliseconds since the epoch (the
JavaScript `Date` arithmetic in the source is millisecond arithmetic);
SQL `INTERVAL` durations are stored in milliseconds.  Request fields that
may be absent from the JSON body are `Option`s; the JavaScript falsiness
checks (`!playerId` etc.) are modelled as absence tests.
-/

namespace SessionService

/-- A row of the `bookings` table.  `durationMs` is the `duration`
INTERVAL in milliseconds (`durationMinutes * 60000`). -/
structure Booking where
  id : Nat
  playerId : Nat
  coachId : Nat
  startsAt : Int
  durationMs : Int
  timezone : String
  status : String
  updatedAt : Int
  deriving Repr, DecidableEq

/-- The body of `POST /bookings`.  `none` models an absent (or JS-falsy)
field; `durationMinutes` and `timezone` have destructuring defaults in the
handler. -/
structure CreateReq where
  playerId : Option Nat
  coachId : Option Nat
  startsAt : Option Int
  durationMinutes : Option Int
  timezone : Option String
  deriving Repr, DecidableEq

/-- The conflict-check SELECT of `POST /bookings`:
`coach_id = $1 AND starts_at <= $2 AND (starts_at + duration) > $2
 AND status NOT IN ('cancelled','completed')` with `$2` the requested
start. -/
def conflictRows (store : List Booking) (coachId : Nat) (startsAt : Int) :
    List Booking :=
  store.filter (fun b =>
    b.coachId = coachId && b.startsAt ≤ startsAt &&
    b.startsAt + b.durationMs > startsAt &&
    b.status ≠ "cancelled" && b.status ≠ "completed")

/-- Outcome of `POST /bookings`. -/
inductive CreateResult where
  | validationError
  | conflictError
  | created (b : Booking)
  deriving Repr, DecidableEq

/-- The `POST /bookings` handler.  `newId` stands for the generated
uuidv4, `now` for the row timestamps.  Missing required fields give the
400 validation error; a non-empty conflict query gives the 409; otherwise
the booking is INSERTed with status `'confirmed'`. -/
def createBooking (store : List Booking) (newId : Nat) (now : Int)
    (req : CreateReq) : CreateResult × List Booking :=
  match req.playerId, req.coachId, req.startsAt with
  | some p, some c, some s =>
    if (conflictRows store c s).length > 0 then
      (.conflictError, store)
    else
      let b : Booking :=
        { id := newId, playerId := p, coachId := c, startsAt := s,
          durationMs := (req.durationMinutes.getD 60) * 60000,
          timezone := req.timezone.getD "UTC",
          status := "confirmed", updatedAt := now }
      (.created b, store ++ [b])
  | _, _, _ => (.validationError, store)

/-- The spec's half-open interval overlap predicate for an active
existing booking: `start < e AND s < start + duration`, with the booking
active iff its status is outside {cancelled, completed}. -/
def specOverlaps (b : Booking) (coachId : Nat) (startsAt duration : Int) :
    Bool :=
  b.coachId = coachId &&
  b.status ≠ "cancelled" && b.status ≠ "completed" &&
  startsAt < b.startsAt + b.durationMs &&
  b.startsAt < startsAt + duration

/-- The status whitelist of `PUT /bookings/:id/status`. -/
def validStatuses : List String :=
  ["confirmed", "in_progress", "completed", "cancelled"]

/-- Outcome of `PUT /bookings/:id/status`. -/
inductive UpdateResult where
  | missingStatus
  | invalidStatus
  | notFound
  | updated (b : Booking)
  deriving Repr, DecidableEq

/-- The `PUT /bookings/:id/status` handler.  A missing (JS-falsy) status
is a 400, a status outside `validStatuses` is a 400, an id matching no
row is a 404; otherwise the UPDATE sets `status` and `updated_at` on the
matching row unconditionally. -/
def updateStatus (store : List Booking) (id : Nat) (status : Option String)
    (now : Int) : UpdateResult × List Booking :=
  match status with
  | none => (.missingStatus, store)
  | some s =>
    if s ∈ validStatuses then
      match store.find? (fun b => b.id = id) with
      | none => (.notFound, store)
      | some b =>
        (.updated { b with status := s, updatedAt := now },
         store.map (fun x =>
           if x.id = id then { x with status := s, updatedAt := now } else x))
    else (.invalidStatus, store)

/-- Outcome of `POST /bookings/:id/cancel`.  `refundEligible` carries the
`hoursUntilStart >= 24` flag of the response body. -/
inductive CancelResult where
  | notFound
  | windowClosed
  | cancelled (b : Booking) (refundEligible : Bool)
  deriving Repr, DecidableEq

/-- The `POST /bookings/:id/cancel` handler.  The source computes
`hoursUntilStart = (startsAt - now) / (1000*60*60)` as an exact real
quotient and compares it with 2 and 24; we keep `startsAt - now` in
milliseconds and compare with `2h = 7200000 ms` and `24h = 86400000 ms`,
which is the same comparison since division by the positive constant
3600000 is strictly monotone. -/
def cancelBooking (store : List Booking) (id : Nat) (now : Int) :
    CancelResult × List Booking :=
  match store.find? (fun b => b.id = id) with
  | none => (.notFound, store)
  | some bd =>
    let msUntilStart := bd.startsAt - now
    if msUntilStart < 7200000 ∧ bd.status = "confirmed" then
      (.windowClosed, store)
    else
      (.cancelled { bd with status := "cancelled", updatedAt := now }
         (decide (msUntilStart ≥ 86400000)),
       store.map (fun x =>
         if x.id = id then { x with status := "cancelled", updatedAt := now }
         else x))

/-- Two create requests racing for the same slot, in the interleaving
where both handlers run their conflict-check SELECT before either INSERT
commits.  Each handler `await`s between the SELECT and the INSERT and no
transaction spans the two queries, so the event loop can run the second
handler's SELECT against the store that still lacks the first INSERT.
The inserts then both execute; each request reports the result its own
handler computed. -/
def createBookingRaced (store : List Booking) (id1 id2 : Nat) (now : Int)
    (r1 r2 : CreateReq) : CreateResult × CreateResult × List Booking :=
  match r1.playerId, r1.coachId, r1.startsAt,
        r2.playerId, r2.coachId, r2.startsAt with
  | some p1, some c1, some s1, some p2, some c2, some s2 =>
    let conflict1 := (conflictRows store c1 s1).length > 0
    let conflict2 := (conflictRows store c2 s2).length > 0
    let b1 : Booking :=
      { id := id1, playerId := p1, coachId := c1, startsAt := s1,
        durationMs := (r1.durationMinutes.getD 60) * 60000,
        timezone := r1.timezone.getD "UTC",
        status := "confirmed", updatedAt := now }
    let b2 : Booking :=
      { id := id2, playerId := p2, coachId := c2, startsAt := s2,
        durationMs := (r2.durationMinutes.getD 60) * 60000,
        timezone := r2.timezone.getD "UTC",
        status := "confirmed", updatedAt := now }
    let afterIns1 := if conflict1 then store else store ++ [b1]
    let afterIns2 := if conflict2 then afterIns1 else afterIns1 ++ [b2]
    ((if conflict1 then .conflictError else .created b1),
     (if conflict2 then .conflictError else .created b2),
     afterIns2)
  | _, _, _, _, _, _ => (.validationError, .validationError, store)

end SessionService

namespace PaymentService

/-- A row of the `payment_intents` table.  `amount` is the DECIMAL
amount in cents (an exact integer; the handlers only copy and compare
it). -/
structure PaymentIntent where
  id : Nat
  bookingId : Nat
  provider : String
  status : String
  amount : Nat
  currency : String
  providerIntentId : Nat
  updatedAt : Int
  deriving Repr, DecidableEq

/-- Outcome of `POST /payment-intents/:id/capture`. -/
inductive CaptureResult where
  | notFound
  | notAuthorized
  | captured
  deriving Repr, DecidableEq

/-- The `POST /payment-intents/:id/capture` handler.  A missing intent
is a 404; `payment.status !== 'authorized'` is a 400
(`Payment must be authorized before capture`); otherwise the UPDATE sets
`status = 'captured'` and `updated_at` on the matching row. -/
def capture (store : List PaymentIntent) (id : Nat) (now : Int) :
    CaptureResult × List PaymentIntent :=
  match store.find? (fun p => p.id = id) with
  | none => (.notFound, store)
  | some payment =>
    if payment.status ≠ "authorized" then (.notAuthorized, store)
    else
      (.captured,
       store.map (fun q =>
         if q.id = id then { q with status := "captured", updatedAt := now }
         else q))

/-- Outcome of `POST /payment-intents/:id/refund`.  `refundAmount` is the
amount echoed in the response body. -/
inductive RefundResult where
  | notFound
  | notCaptured
  | refunded (refundAmount : Nat)
  deriving Repr, DecidableEq

/-- The `POST /payment-intents/:id/refund` handler.  A missing intent is
a 404; `payment.status !== 'captured'` is a 400
(`Only captured payments can be refunded`); otherwise
`refundAmount = amount || payment.amount` (so an absent — or JS-falsy
zero — request amount falls back to the stored full amount) and the
UPDATE sets `status = 'refunded'` and `updated_at`. -/
def refund (store : List PaymentIntent) (id : Nat) (amount : Option Nat)
    (now : Int) : RefundResult × List PaymentIntent :=
  match store.find? (fun p => p.id = id) with
  | none => (.notFound, store)
  | some payment =>
    if payment.status ≠ "captured" then (.notCaptured, store)
    else
      let refundAmount :=
        match amount with
        | none => payment.amount
        | some a => if a = 0 then payment.amount else a
      (.refunded refundAmount,
       store.map (fun q =>
         if q.id = id then { q with status := "refunded", updatedAt := now }
         else q))

/-- The fields of a payment-intent row that the capture and refund
UPDATEs never mention: identity, booking reference, provider, amount,
currency and the provider correlation id. -/
def frameFields (p : PaymentIntent) : Nat × Nat × String × Nat × String × Nat :=
  (p.id, p.bookingId, p.provider, p.amount, p.currency, p.providerIntentId)

/-- A payment intent already in the `captured` terminal state. -/
def c3Captured : PaymentIntent :=
  { id := 1, bookingId := 7, provider := "stripe", status := "captured",
    amount := 5000, currency := "USD", providerIntentId := 11,
    updatedAt := 0 }

/-- Counterexample to C3: capturing an intent whose status is already
`captured` returns the 400 error (`Payment must be authorized before
capture`), not the existing captured result — capture is not
idempotent. -/
theorem capture_captured_errors :
    capture [c3Captured] 1 5 = (.notAuthorized, [c3Captured]) := by
  decide

/-- C3 (amended): for an existing intent, capture succeeds exactly when
its status is `authorized` (marking it `captured`); any other status —
including an already-`captured` intent, so a retried capture — yields
the not-authorized error and leaves the store unchanged. -/
theorem capture_requires_authorized (store : List PaymentIntent)
    (id : Nat) (now : Int) (payment : PaymentIntent)
    (hfind : store.find? (fun p => p.id = id) = some payment) :
    (payment.status = "authorized" →
       capture store id now =
         (.captured,
          store.map (fun q =>
            if q.id = id then { q with status := "captured", updatedAt := now }
            else q))) ∧
    (payment.status ≠ "authorized" →
       capture store id now = (.notAuthorized, store)) := by
  constructor
  · intro hst
    simp only [capture, hfind, hst]
    simp
  · intro hst
    simp only [capture, hfind, if_pos hst]

/-- An authorized intent, ready for capture. -/
def c3Authorized : PaymentIntent :=
  { id := 1, bookingId := 7, provider := "stripe", status := "authorized",
    amount := 5000, currency := "USD", providerIntentId := 11,
    updatedAt := 0 }

/-- Witness for C3 (amended): an authorized intent is captured; the same
intent once captured is rejected. -/
theorem capture_requires_authorized_witness :
    capture [c3Authorized] 1 5 =
      (.captured, [{ c3Authorized with status := "captured", updatedAt := 5 }]) ∧
    capture [c3Captured] 1 5 = (.notAuthorized, [c3Captured]) := by
  constructor
  · have h := (capture_requires_authorized [c3Authorized] 1 5 c3Authorized
      (by decide)).1 rfl
    simpa using h
  · exact (capture_requires_authorized [c3Captured] 1 5 c3Captured
      (by decide)).2 (by decide)

/-- C6: for an existing intent, refund succeeds exactly when the status
is `captured` — any other status yields the 400 error with the store
unchanged; on success the refunded amount defaults to the full stored
amount when the request specifies none, and every row with the refunded
id ends with status `refunded`. -/
theorem refund_policy (store : List PaymentIntent) (id : Nat)
    (amt : Option Nat) (now : Int) (payment : PaymentIntent)
    (hfind : store.find? (fun p => p.id = id) = some payment) :
    (payment.status ≠ "captured" →
       refund store id amt now = (.notCaptured, store)) ∧
    (payment.status = "captured" →
       refund store id amt now =
         (.refunded (match amt with
            | none => payment.amount
            | some a => if a = 0 then payment.amount else a),
          store.map (fun q =>
            if q.id = id then { q with status := "refunded", updatedAt := now }
            else q)) ∧
       (amt = none → (refund store id amt now).1 = .refunded payment.amount) ∧
       ∀ x ∈ (refund store id amt now).2, x.id = id →
         x.status = "refunded") := by
  constructor
  · intro hst
    simp only [refund, hfind, if_pos hst]
  · intro hst
    have heq : refund store id amt now =
        (.refunded (match amt with
           | none => payment.amount
           | some a => if a = 0 then payment.amount else a),
         store.map (fun q =>
           if q.id = id then { q with status := "refunded", updatedAt := now }
           else q)) := by
      simp only [refund, hfind, hst]
      simp
    refine ⟨heq, ?_, ?_⟩
    · intro hnone
      rw [heq, hnone]
    · intro x hx hid
      rw [heq] at hx
      simp only [List.mem_map] at hx
      obtain ⟨y, _, hfy⟩ := hx
      by_cases hy : y.id = id
      · rw [if_pos hy] at hfy
        rw [← hfy]
      · rw [if_neg hy] at hfy
        rw [← hfy] at hid
        exact absurd hid hy

/-- Witness for C6: refunding a captured intent with no amount refunds
the full stored amount and marks the row refunded; refunding an
authorized intent is rejected. -/
theorem refund_policy_witness :
    refund [c3Captured] 1 none 9 =
      (.refunded 5000, [{ c3Captured with status := "refunded", updatedAt := 9 }]) ∧
    refund [c3Authorized] 1 none 9 = (.notCaptured, [c3Authorized]) := by
  constructor
  · have h := ((refund_policy [c3Captured] 1 none 9 c3Captured
      (by decide)).2 rfl).1
    simpa using h
  · exact (refund_policy [c3Authorized] 1 none 9 c3Authorized
      (by decide)).1 (by decide)

/-- Rewriting rows to a new status and timestamp does not change the
frame fields. -/
lemma map_frameFields_setStatus (store : List PaymentIntent) (id : Nat)
    (s : String) (now : Int) :
    (store.map (fun q =>
      if q.id = id then { q with status := s, updatedAt := now } else q)).map
        frameFields = store.map frameFields := by
  induction store with
  | nil => rfl
  | cons a l ih =>
    simp only [List.map_cons, ih]
    by_cases h : a.id = id
    · rw [if_pos h]; rfl
    · rw [if_neg h]

/-- C9: the capture and refund UPDATEs touch only `status` and
`updated_at`: for every store and request, the multiset of
(id, booking reference, provider, amount, currency, provider correlation
id) tuples — in particular the amount and currency of every intent, an
authorized one included — is exactly the same before and after. -/
theorem capture_refund_frame (store : List PaymentIntent) (id : Nat)
    (amt : Option Nat) (now : Int) :
    ((capture store id now).2).map frameFields = store.map frameFields ∧
    ((refund store id amt now).2).map frameFields = store.map frameFields := by
  constructor
  · match hfind : store.find? (fun p => p.id = id) with
    | none => simp only [capture, hfind]
    | some payment =>
      by_cases hst : payment.status ≠ "authorized"
      · simp only [capture, hfind, if_pos hst]
      · simp only [capture, hfind, if_neg hst, map_frameFields_setStatus]
  · match hfind : store.find? (fun p => p.id = id) with
    | none => simp only [refund, hfind]
    | some payment =>
      by_cases hst : payment.status ≠ "captured"
      · simp only [refund, hfind, if_pos hst]
      · simp only [refund, hfind, if_neg hst, map_frameFields_setStatus]

end PaymentService

namespace SessionService

/-- An existing confirmed booking for coach 2 over
`[1000000, 1000000 + 3600000) = [1000000, 4600000)` milliseconds. -/
def c1Existing : Booking :=
  { id := 1, playerId := 5, coachId := 2, startsAt := 1000000,
    durationMs := 3600000, timezone := "UTC", status := "confirmed",
    updatedAt := 0 }

/-- A creation request for coach 2 over `[400000, 400000 + 3600000)`,
which overlaps `c1Existing` (the existing booking starts strictly after
the requested start and before its end). -/
def c1Req : CreateReq :=
  { playerId := some 6, coachId := some 2, startsAt := some 400000,
    durationMinutes := some 60, timezone := none }

/-- C1: the claim says the conflict check reports a conflict exactly on
half-open interval overlap with an active booking of the same coach, and
in particular must report an active booking that starts strictly after
the requested start but before its end.  The code's query
(`starts_at <= $2 AND starts_at + duration > $2`) only detects existing
bookings whose interval CONTAINS the requested start: on the failing
input — existing active booking `[1000000, 4600000)`, request
`[400000, 4000000)` for the same coach — the spec's overlap predicate
holds, yet the conflict query returns no rows and the handler creates the
booking, leaving two overlapping active bookings for coach 2. -/
theorem conflict_check_misses_overlap :
    specOverlaps c1Existing 2 400000 3600000 = true ∧
    conflictRows [c1Existing] 2 400000 = [] ∧
    (createBooking [c1Existing] 9 0 c1Req).1 =
      .created { id := 9, playerId := 6, coachId := 2, startsAt := 400000,
                 durationMs := 3600000, timezone := "UTC",
                 status := "confirmed", updatedAt := 0 } ∧
    (createBooking [c1Existing] 9 0 c1Req).2.length = 2 := by
  refine ⟨by decide, by decide, by decide, by decide⟩

/-- C5: the cancellation policy of `POST /bookings/:id/cancel` on an
existing booking: when `hoursUntilStart < 2` (i.e. the millisecond gap is
below `7200000`) and the status is `confirmed`, the request is rejected
and the store is unchanged; otherwise the booking is cancelled and the
returned refund-eligibility flag is true exactly when
`hoursUntilStart ≥ 24` (the gap is at least `86400000` ms). -/
theorem cancelBooking_policy (store : List Booking) (id : Nat) (now : Int)
    (bd : Booking) (hfind : store.find? (fun b => b.id = id) = some bd) :
    (bd.startsAt - now < 7200000 ∧ bd.status = "confirmed" →
       cancelBooking store id now = (.windowClosed, store)) ∧
    (¬ (bd.startsAt - now < 7200000 ∧ bd.status = "confirmed") →
       cancelBooking store id now =
         (.cancelled { bd with status := "cancelled", updatedAt := now }
            (decide (bd.startsAt - now ≥ 86400000)),
          store.map (fun x =>
            if x.id = id then { x with status := "cancelled", updatedAt := now }
            else x)) ∧
       ((decide (bd.startsAt - now ≥ 86400000)) = true ↔
          86400000 ≤ bd.startsAt - now)) := by
  constructor
  · intro h
    simp only [cancelBooking, hfind, if_pos h]
  · intro h
    refine ⟨by simp only [cancelBooking, hfind, if_neg h], ?_⟩
    simp [ge_iff_le]

/-- A confirmed booking starting 25 hours (90000000 ms) after time 0. -/
def c5Booking : Booking :=
  { id := 1, playerId := 5, coachId := 2, startsAt := 90000000,
    durationMs := 3600000, timezone := "UTC", status := "confirmed",
    updatedAt := 0 }

/-- Witness for C5: a confirmed booking starting 25 hours from now is
cancelled with refund eligibility true. -/
theorem cancelBooking_policy_witness :
    cancelBooking [c5Booking] 1 0 =
      (.cancelled { c5Booking with status := "cancelled", updatedAt := 0 } true,
       [{ c5Booking with status := "cancelled", updatedAt := 0 }]) := by
  have h := (cancelBooking_policy [c5Booking] 1 0 c5Booking (by decide)).2
    (by decide)
  exact h.1

/-- C10: `PUT /bookings/:id/status` can never move a booking back to
`pending`: a request whose target status is `pending` is rejected by the
whitelist with the invalid-status error and leaves the store unchanged,
and after any request every booking in the store either is an unchanged
row of the old store or carries a whitelisted status, which is never
`pending`. -/
theorem updateStatus_never_pending (store : List Booking) (id : Nat)
    (status : Option String) (now : Int) :
    updateStatus store id (some "pending") now = (.invalidStatus, store) ∧
    ∀ x ∈ (updateStatus store id status now).2,
      x ∈ store ∨ (x.status ∈ validStatuses ∧ x.status ≠ "pending") := by
  constructor
  · simp only [updateStatus, if_neg (by decide : ¬ "pending" ∈ validStatuses)]
  · intro x hx
    match status with
    | none => exact .inl hx
    | some s =>
      by_cases hs : s ∈ validStatuses
      · simp only [updateStatus, if_pos hs] at hx
        match hfind : store.find? (fun b => b.id = id) with
        | none => rw [hfind] at hx; exact .inl hx
        | some b =>
          rw [hfind] at hx
          simp only [List.mem_map] at hx
          obtain ⟨y, hy, hfy⟩ := hx
          by_cases hid : y.id = id
          · right
            rw [if_pos hid] at hfy
            subst hfy
            refine ⟨hs, ?_⟩
            intro hpend
            have hps : s = "pending" := hpend
            rw [hps] at hs
            exact absurd hs (by decide)
          · left
            rw [if_neg hid] at hfy
            subst hfy
            exact hy
      · simp only [updateStatus, if_neg hs] at hx
        exact .inl hx

/-- Witness for C10: on a concrete store a `pending` target is rejected
and the store kept. -/
theorem updateStatus_never_pending_witness :
    updateStatus [c5Booking] 1 (some "pending") 0 =
      (.invalidStatus, [c5Booking]) :=
  (updateStatus_never_pending [c5Booking] 1 (some "pending") 0).1

/-- A well-formed creation request used against the empty store. -/
def c2Req : CreateReq :=
  { playerId := some 6, coachId := some 2, startsAt := some 1000000,
    durationMinutes := some 60, timezone := none }

/-- The booking the handler INSERTs for `c2Req`. -/
def c2Booking : Booking :=
  { id := 1, playerId := 6, coachId := 2, startsAt := 1000000,
    durationMs := 3600000, timezone := "UTC", status := "confirmed",
    updatedAt := 0 }

/-- Counterexample to C2: on the empty store a valid request is persisted
in one step with status `confirmed` — the row is never written as
`pending`, and the handler contains no payment-authorization step that
the transition to `confirmed` could depend on. -/
theorem createBooking_skips_pending :
    createBooking [] 1 0 c2Req = (.created c2Booking, [c2Booking]) ∧
    c2Booking.status = "confirmed" ∧ c2Booking.status ≠ "pending" := by
  refine ⟨by decide, by decide, by decide⟩

/-- C2 (amended): for every request that passes field validation and the
conflict check, `POST /bookings` persists the booking directly with
status `confirmed` in its single INSERT; no `pending` row is ever
written, no payment authorization is invoked, and there is no rollback
path. -/
theorem createBooking_direct_confirmed (store : List Booking) (newId : Nat)
    (now : Int) (req : CreateReq) (p c : Nat) (s : Int)
    (hp : req.playerId = some p) (hc : req.coachId = some c)
    (hs : req.startsAt = some s)
    (hnoconf : conflictRows store c s = []) :
    ∃ b : Booking,
      createBooking store newId now req = (.created b, store ++ [b]) ∧
      b.status = "confirmed" ∧
      ∀ x ∈ (createBooking store newId now req).2,
        x ∈ store ∨ x.status = "confirmed" := by
  refine ⟨{ id := newId, playerId := p, coachId := c, startsAt := s,
            durationMs := (req.durationMinutes.getD 60) * 60000,
            timezone := req.timezone.getD "UTC",
            status := "confirmed", updatedAt := now }, ?_, rfl, ?_⟩
  · simp [createBooking, hp, hc, hs, hnoconf]
  · intro x hx
    simp only [createBooking, hp, hc, hs, hnoconf] at hx
    simp only [List.length_nil, gt_iff_lt, lt_self_iff_false, if_false,
      List.mem_append, List.mem_singleton] at hx
    rcases hx with hx | hx
    · exact .inl hx
    · right; rw [hx]

/-- Witness for C2 (amended): the concrete valid request on the empty
store. -/
theorem createBooking_direct_confirmed_witness :
    ∃ b : Booking,
      createBooking [] 1 0 c2Req = (.created b, [] ++ [b]) ∧
      b.status = "confirmed" ∧
      ∀ x ∈ (createBooking [] 1 0 c2Req).2,
        x ∈ ([] : List Booking) ∨ x.status = "confirmed" :=
  createBooking_direct_confirmed [] 1 0 c2Req 6 2 1000000 rfl rfl rfl rfl

/-- A booking already `completed`. -/
def c4Completed : Booking :=
  { id := 1, playerId := 5, coachId := 2, startsAt := 1000000,
    durationMs := 3600000, timezone := "UTC", status := "completed",
    updatedAt := 0 }

/-- A booking currently `in_progress`. -/
def c4InProgress : Booking :=
  { id := 2, playerId := 5, coachId := 2, startsAt := 0,
    durationMs := 3600000, timezone := "UTC", status := "in_progress",
    updatedAt := 0 }

/-- Counterexample to C4: the status endpoint happily applies the
transition `completed → confirmed`, which the claimed table forbids, and
the cancel endpoint cancels a booking that is `in_progress`, which the
claim says must be rejected with `ErrInvalidTransition`. -/
theorem transitions_not_enforced :
    (updateStatus [c4Completed] 1 (some "confirmed") 5).1 =
      .updated { c4Completed with status := "confirmed", updatedAt := 5 } ∧
    (cancelBooking [c4InProgress] 2 0).1 =
      .cancelled { c4InProgress with status := "cancelled", updatedAt := 0 }
        false := by
  refine ⟨by decide, by decide⟩

/-- C4 (amended): `PUT /bookings/:id/status` checks only that the target
status belongs to {confirmed, in_progress, completed, cancelled}; for an
existing booking any whitelisted target is applied unconditionally,
whatever the current status, and only a non-whitelisted target is
rejected (with the store unchanged) — no transition table and no
`ErrInvalidTransition` exist in the code. -/
theorem updateStatus_unconditional (store : List Booking) (id : Nat)
    (now : Int) (b : Booking)
    (hfind : store.find? (fun x => x.id = id) = some b) (s : String) :
    (s ∈ validStatuses →
       updateStatus store id (some s) now =
         (.updated { b with status := s, updatedAt := now },
          store.map (fun x =>
            if x.id = id then { x with status := s, updatedAt := now }
            else x))) ∧
    (s ∉ validStatuses →
       updateStatus store id (some s) now = (.invalidStatus, store)) := by
  constructor
  · intro hsv
    simp only [updateStatus, if_pos hsv, hfind]
  · intro hsv
    simp only [updateStatus, if_neg hsv]

/-- Witness for C4 (amended): `completed → confirmed` is applied on a
concrete store. -/
theorem updateStatus_unconditional_witness :
    updateStatus [c4Completed] 1 (some "confirmed") 5 =
      (.updated { c4Completed with status := "confirmed", updatedAt := 5 },
       [{ c4Completed with status := "confirmed", updatedAt := 5 }]) := by
  have h := (updateStatus_unconditional [c4Completed] 1 5 c4Completed
    (by decide) "confirmed").1 (by decide)
  simpa using h

/-- A fully-populated request whose duration is 0 minutes and whose start
(`-5000`) lies before the current time (`10`). -/
def c7Req : CreateReq :=
  { playerId := some 1, coachId := some 2, startsAt := some (-5000),
    durationMinutes := some 0, timezone := none }

/-- Counterexample to C7: a request with a non-positive duration (0
minutes) and a start in the past is accepted and persisted — the handler
checks neither condition. -/
theorem validation_gaps :
    (createBooking [] 3 10 c7Req).1 =
      .created { id := 3, playerId := 1, coachId := 2, startsAt := -5000,
                 durationMs := 0, timezone := "UTC", status := "confirmed",
                 updatedAt := 10 } ∧
    (createBooking [] 3 10 c7Req).2.length = 1 := by
  refine ⟨by decide, by decide⟩

/-- C7 (amended): the only validation `POST /bookings` performs is
presence of `playerId`, `coachId` and `startsAt`: a request missing any
of them fails with the 400 validation error and persists nothing, while
any request with all three present is never rejected by validation
(non-positive durations and past starts included). -/
theorem createBooking_validation (store : List Booking) (newId : Nat)
    (now : Int) (req : CreateReq) :
    ((req.playerId = none ∨ req.coachId = none ∨ req.startsAt = none) →
       createBooking store newId now req = (.validationError, store)) ∧
    (∀ p c s, req.playerId = some p → req.coachId = some c →
       req.startsAt = some s →
       (createBooking store newId now req).1 ≠ .validationError) := by
  obtain ⟨P, C, S, D, T⟩ := req
  constructor
  · intro h
    cases P <;> cases C <;> cases S <;> simp_all [createBooking]
  · intro p c s hp hc hs
    simp only at hp hc hs
    subst hp; subst hc; subst hs
    simp only [createBooking]
    split <;> simp

/-- Witness for C7 (amended): a request missing `startsAt` is rejected
and nothing is stored; the zero-duration past-start request is not
rejected by validation. -/
theorem createBooking_validation_witness :
    createBooking [] 1 0
        { playerId := some 1, coachId := some 2, startsAt := none,
          durationMinutes := none, timezone := none } =
      (.validationError, []) ∧
    (createBooking [] 3 10 c7Req).1 ≠ .validationError :=
  ⟨(createBooking_validation [] 1 0 _).1 (.inr (.inr rfl)),
   (createBooking_validation [] 3 10 c7Req).2 1 2 (-5000) rfl rfl rfl⟩

/-- A valid request for coach 2 over `[1000000, 1000000 + 3600000)`. -/
def c8Req : CreateReq :=
  { playerId := some 1, coachId := some 2, startsAt := some 1000000,
    durationMinutes := none, timezone := none }

/-- Counterexample to C8: two identical requests raced so that both
conflict checks run before either insert commits — which the handler
permits, as the SELECT and the INSERT are separate awaited queries with
no transaction and the schema has no overlap constraint — BOTH succeed
and the final store holds two identical active bookings for coach 2,
contradicting "exactly one commits and the other fails with
ErrConflict". -/
theorem race_double_books :
    (createBookingRaced [] 1 2 0 c8Req c8Req).1 =
      .created { id := 1, playerId := 1, coachId := 2, startsAt := 1000000,
                 durationMs := 3600000, timezone := "UTC",
                 status := "confirmed", updatedAt := 0 } ∧
    (createBookingRaced [] 1 2 0 c8Req c8Req).2.1 =
      .created { id := 2, playerId := 1, coachId := 2, startsAt := 1000000,
                 durationMs := 3600000, timezone := "UTC",
                 status := "confirmed", updatedAt := 0 } ∧
    (createBookingRaced [] 1 2 0 c8Req c8Req).2.2.length = 2 := by
  refine ⟨by decide, by decide, by decide⟩

/-- An appended booking that covers the requested start makes the
conflict query non-empty. -/
lemma conflictRows_append_pos (store : List Booking) (b : Booking)
    (c : Nat) (s : Int) (hc : b.coachId = c) (hs : b.startsAt ≤ s)
    (he : s < b.startsAt + b.durationMs)
    (h1 : b.status ≠ "cancelled") (h2 : b.status ≠ "completed") :
    0 < (conflictRows (store ++ [b]) c s).length := by
  have hmem : b ∈ conflictRows (store ++ [b]) c s := by
    apply List.mem_filter.mpr
    refine ⟨by simp, ?_⟩
    simp only [Bool.and_eq_true, decide_eq_true_eq]
    exact ⟨⟨⟨⟨hc, hs⟩, he⟩, h1⟩, h2⟩
  exact List.length_pos.mpr (List.ne_nil_of_mem hmem)

/-- C8 (amended): the conflict check and the insert are two separate
queries, not an atomic check-then-act.  When the two requests for the
same coach and start run sequentially (the second SELECT after the first
INSERT commits), the first succeeds and the second fails with the
conflict error; but in the interleaving where both SELECTs run before
either INSERT, both requests succeed and the slot is double-booked. -/
theorem createBooking_check_not_atomic (store : List Booking)
    (id1 id2 p1 p2 c : Nat) (s now : Int) (r1 r2 : CreateReq)
    (h1p : r1.playerId = some p1) (h1c : r1.coachId = some c)
    (h1s : r1.startsAt = some s)
    (h2p : r2.playerId = some p2) (h2c : r2.coachId = some c)
    (h2s : r2.startsAt = some s)
    (hd : 0 < r1.durationMinutes.getD 60)
    (hnoconf : conflictRows store c s = []) :
    ∃ b1 b2 : Booking,
      createBooking store id1 now r1 = (.created b1, store ++ [b1]) ∧
      createBooking (store ++ [b1]) id2 now r2 =
        (.conflictError, store ++ [b1]) ∧
      createBookingRaced store id1 id2 now r1 r2 =
        (.created b1, .created b2, (store ++ [b1]) ++ [b2]) ∧
      b1.coachId = c ∧ b2.coachId = c ∧
      b1.startsAt = s ∧ b2.startsAt = s := by
  refine ⟨{ id := id1, playerId := p1, coachId := c, startsAt := s,
            durationMs := (r1.durationMinutes.getD 60) * 60000,
            timezone := r1.timezone.getD "UTC",
            status := "confirmed", updatedAt := now },
          { id := id2, playerId := p2, coachId := c, startsAt := s,
            durationMs := (r2.durationMinutes.getD 60) * 60000,
            timezone := r2.timezone.getD "UTC",
            status := "confirmed", updatedAt := now },
          ?_, ?_, ?_, rfl, rfl, rfl, rfl⟩
  · simp [createBooking, h1p, h1c, h1s, hnoconf]
  · have hlen := conflictRows_append_pos store
      { id := id1, playerId := p1, coachId := c, startsAt := s,
        durationMs := (r1.durationMinutes.getD 60) * 60000,
        timezone := r1.timezone.getD "UTC",
        status := "confirmed", updatedAt := now } c s rfl (le_refl s)
      (show s < s + (r1.durationMinutes.getD 60) * 60000 by omega)
      (show ("confirmed" : String) ≠ "cancelled" by decide)
      (show ("confirmed" : String) ≠ "completed" by decide)
    simp only [createBooking, h2p, h2c, h2s, gt_iff_lt, if_pos hlen]
  · simp [createBookingRaced, h1p, h1c, h1s, h2p, h2c, h2s, hnoconf]

/-- Witness for C8 (amended): the concrete identical-slot requests on
the empty store. -/
theorem createBooking_check_not_atomic_witness :
    ∃ b1 b2 : Booking,
      createBooking [] 1 0 c8Req = (.created b1, [] ++ [b1]) ∧
      createBooking ([] ++ [b1]) 2 0 c8Req =
        (.conflictError, [] ++ [b1]) ∧
      createBookingRaced [] 1 2 0 c8Req c8Req =
        (.created b1, .created b2, ([] ++ [b1]) ++ [b2]) ∧
      b1.coachId = 2 ∧ b2.coachId = 2 ∧
      b1.startsAt = 1000000 ∧ b2.startsAt = 1000000 :=
  createBooking_check_not_atomic [] 1 2 1 1 2 1000000 0 c8Req c8Req
    rfl rfl rfl rfl rfl rfl (by decide) rfl

end SessionService

